import Mathlib

/-!
Verification of the MyST-NB notebook-to-document-tree rendering core.

This file shallowly embeds the rendering logic of
`src/myst_nb/docutils_.py` (class `DocutilsNbRenderer`: the methods
`get_cell_render_config`, `render_nb_cell_code` and
`render_nb_cell_code_outputs`) and the cell loop of
`src/myst_nb/parser.py` (`NotebookParser.parse`), and proves the
specification claims about MIME-type selection, output dispatch,
configuration precedence, input/output removal and rendering order.

External collaborators (the `NbElementRenderer` hooks, the markdown
tokenizer/renderer, `create_figure_context` and the resolved mime
priority list) live outside the two source files; they are modelled as
function parameters (`Hooks`, `mdRender`) or, where the spec describes
their behaviour, as definitions marked `Modelled from the spec`.
Docutils nodes are modelled by the `Node` inductive; node attributes
not needed by any claim (source line/path stamping, `cell_index`,
`exec_count` attributes on containers) are omitted from `Node`.
-/

/-- Python metadata values (JSON-like), as stored in cell/notebook
metadata maps. `dict` models a Python `dict` as an association list. -/
inductive MetaValue where
  | none
  | bool (b : Bool)
  | num (n : Int)
  | str (s : String)
  | list (items : List MetaValue)
  | dict (entries : List (String × MetaValue))

/-- Python truthiness of a metadata value, used by the `or` chains in
`render_nb_cell_code`. -/
def truthy : MetaValue → Bool
  | MetaValue.none => false
  | MetaValue.bool b => b
  | MetaValue.num n => n != 0
  | MetaValue.str s => !s.isEmpty
  | MetaValue.list items => !items.isEmpty
  | MetaValue.dict entries => !entries.isEmpty

/-- Whether a metadata value is a Python `dict` (`isinstance(v, dict)`). -/
def isDict : MetaValue → Bool
  | MetaValue.dict _ => true
  | _ => false

/-- Lookup in a metadata map (Python `m[k]` / `k in m` on a dict). -/
def lookupMeta : List (String × MetaValue) → String → Option MetaValue
  | [], _ => Option.none
  | p :: rest, k => if p.1 = k then Option.some p.2 else lookupMeta rest k

/-- Lookup in a MIME bundle, a map from MIME-type string to payload
(Python `output["data"][mime]`). -/
def lookupStr : List (String × String) → String → Option String
  | [], _ => Option.none
  | p :: rest, k => if p.1 = k then Option.some p.2 else lookupStr rest k

/-- Python `k in data` on a MIME bundle. -/
def hasKey (data : List (String × String)) (k : String) : Bool :=
  (lookupStr data k).isSome

/-- One notebook cell output, as a record mirroring the `NotebookNode`
fields the renderer reads: `output_type` drives the dispatch; `name`
and `text` are meaningful for streams, `ename`/`evalue`/`traceback`
for errors, `data`/`metadata` for display_data / execute_result. -/
structure Output where
  output_type : String
  name : String
  text : String
  ename : String
  evalue : String
  traceback : List String
  data : List (String × String)
  metadata : List (String × MetaValue)

/-- Document-tree nodes produced by the core. `warning` models
`create_warning`; `container` models docutils `nodes.container` (and
the `CellNode`/`CellInputNode`/`CellOutputNode` subclasses of
`parser.py`) with its classification string and classes;
`literal_block` models `nodes.literal_block`; `outputBundle` models
`CellOutputBundleNode` (which stores the raw outputs for a later
transform); `ext` stands for opaque nodes returned by external
element-renderer hooks. -/
inductive Node where
  | warning (msg : String) (line : Nat) (subtype : String)
  | container (kind : String) (classes : List String) (children : List Node)
  | literal_block (text : String)
  | outputBundle (outputs : List Output)
  | ext (tag : String)

/-- Argument record passed to the element renderer's
`render_mime_type` hook; fields as constructed at the call site in
`render_nb_cell_code_outputs` (the `MimeData` class itself lives in
`myst_nb.core.render`, outside the two source files). -/
structure MimeData where
  mime_type : String
  content : String
  cell_metadata : List (String × MetaValue)
  output_metadata : List (String × MetaValue)
  cell_index : Nat
  output_index : Nat
  line : Nat

/-- External `NbElementRenderer` hooks consumed by the core; each
returns the list of tree nodes it materializes. The
`create_highlighted_code_block` hook (from the base `DocutilsRenderer`)
receives the source, the optional lexer and the `number_source_lines`
config value, and returns a single node. -/
structure Hooks where
  render_stdout : Output → List (String × MetaValue) → Nat → Nat → List Node
  render_stderr : Output → List (String × MetaValue) → Nat → Nat → List Node
  render_error : Output → List (String × MetaValue) → Nat → Nat → List Node
  render_mime_type : MimeData → List Node
  create_highlighted_code_block : String → Option String → MetaValue → Node

/-- Translation of `DocutilsNbRenderer.get_cell_render_config`
(src/myst_nb/docutils_.py lines 233-264).  `nb_config` models
`self.nb_config` as a partial map (indexing an undefined key raises
`KeyError`, modelled as `Except.error` carrying the key, exactly the
value Python's `KeyError` carries); `cell_render_key` is
`self.nb_config.cell_render_key`.  The cell-level sub-map wins when it
is a dict containing `key`; a non-dict cell-level entry is ignored
(the Python `else: pass` with a TODO); otherwise, if `has_nb_key` is
false a `KeyError(key)` is raised, else the notebook-level value for
`nb_key if nb_key is not None else key` is returned, `KeyError` if
undefined. -/
def get_cell_render_config (nb_config : String → Option MetaValue)
    (cell_render_key : String) (cell_metadata : List (String × MetaValue))
    (key : String) (nb_key : Option String) (has_nb_key : Bool) :
    Except String MetaValue :=
  let use_nb_level : Bool :=
    match lookupMeta cell_metadata cell_render_key with
    | Option.some (MetaValue.dict d) => (lookupMeta d key).isNone
    | Option.some _ => true
    | Option.none => true
  if use_nb_level then
    if has_nb_key = false then
      Except.error key
    else
      match nb_config (nb_key.getD key) with
      | Option.some v => Except.ok v
      | Option.none => Except.error (nb_key.getD key)
  else
    match lookupMeta cell_metadata cell_render_key with
    | Option.some (MetaValue.dict d) =>
      match lookupMeta d key with
      | Option.some v => Except.ok v
      | Option.none => Except.error key
    | _ => Except.error key

/-- Translation of `mime_type = next(x for x in mime_priority if x in
output["data"])` (src/myst_nb/docutils_.py line 432): the first entry
of the priority list present among the bundle's keys, `Option.none`
for the `StopIteration` case. -/
def selectMimeType (mime_priority : List String)
    (data : List (String × String)) : Option String :=
  mime_priority.find? (fun x => hasKey data x)

/-- Modelled from the spec: `create_figure_context` (from
`myst_nb.core.render`, outside the two source files) wraps the nodes
rendered inside it in a figure container when figure options were
supplied, and is a no-op pass-through when `figure_options` is absent
("on success, optionally wrap the result in a figure context if the
cell/output config supplies figure options"). -/
def create_figure_context (figure_options : Option MetaValue)
    (inner : List Node) : List Node :=
  match figure_options with
  | Option.none => inner
  | Option.some _ => [Node.container "figure" [] inner]

/-- Per-cell rendering context: the hooks, the notebook configuration,
and the values `render_nb_cell_code_outputs` derives from the cell
token before its loop (`metadata`, `cell_index`, `line`). -/
structure RenderCtx where
  hooks : Hooks
  nb_config : String → Option MetaValue
  cell_render_key : String
  metadata : List (String × MetaValue)
  cell_index : Nat
  line : Nat

/-- Translation of one iteration of the output loop of
`DocutilsNbRenderer.render_nb_cell_code_outputs`
(src/myst_nb/docutils_.py lines 391-469): dispatch on
`output.output_type`; streams go to the stdout/stderr hooks (any other
stream name silently produces nothing); errors to the error hook;
display_data / execute_result select a MIME type by priority (warning
node on failure), look up figure options cell-level only with
`KeyError` suppressed (`Except.toOption`), and delegate to the
`render_mime_type` hook inside the figure context; any other output
type produces a single warning node. -/
def renderOneOutput (ctx : RenderCtx) (mime_priority : List String)
    (output_index : Nat) (output : Output) : List Node :=
  if output.output_type = "stream" then
    if output.name = "stdout" then
      ctx.hooks.render_stdout output ctx.metadata ctx.cell_index ctx.line
    else if output.name = "stderr" then
      ctx.hooks.render_stderr output ctx.metadata ctx.cell_index ctx.line
    else
      []
  else if output.output_type = "error" then
    ctx.hooks.render_error output ctx.metadata ctx.cell_index ctx.line
  else if output.output_type = "display_data" ∨ output.output_type = "execute_result" then
    match selectMimeType mime_priority output.data with
    | Option.none =>
      [Node.warning "No output mime type found from render_priority" ctx.line "mime_type"]
    | Option.some mime_type =>
      let figure_options : Option MetaValue :=
        (get_cell_render_config ctx.nb_config ctx.cell_render_key ctx.metadata
          "figure" Option.none false).toOption
      create_figure_context figure_options
        (ctx.hooks.render_mime_type
          (MimeData.mk mime_type ((lookupStr output.data mime_type).getD "")
            ctx.metadata output.metadata ctx.cell_index output_index ctx.line))
  else
    [Node.warning ("Unsupported output type: " ++ output.output_type) ctx.line "output_type"]

/-- The `for output_index, output in enumerate(outputs)` loop of
`render_nb_cell_code_outputs`, accumulating the nodes extended onto
`self.current_node`; the `Nat` argument is the next output index. -/
def renderOutputsGo (ctx : RenderCtx) (mime_priority : List String) :
    Nat → List Output → List Node
  | _, [] => []
  | i, output :: rest =>
    renderOneOutput ctx mime_priority i output
      ++ renderOutputsGo ctx mime_priority (i + 1) rest

/-- Translation of `DocutilsNbRenderer.render_nb_cell_code_outputs`
(src/myst_nb/docutils_.py lines 379-469).  `mime_priority` is the list
resolved once before the loop by `get_mime_priority` (external). -/
def render_nb_cell_code_outputs (ctx : RenderCtx)
    (mime_priority : List String) (outputs : List Output) : List Node :=
  renderOutputsGo ctx mime_priority 0 outputs

/-- List of string tags of a cell, `metadata.get("tags", [])`;
notebook-format tags are lists of strings, non-string entries are
dropped. -/
def getTags (cell_metadata : List (String × MetaValue)) : List String :=
  match lookupMeta cell_metadata "tags" with
  | Option.some (MetaValue.list vs) =>
    vs.filterMap (fun v => match v with
      | MetaValue.str s => Option.some s
      | _ => Option.none)
  | _ => []

/-- Resolution of one removal flag in `render_nb_cell_code`
(src/myst_nb/docutils_.py lines 313-322):
`get_cell_render_config(metadata, cfg_key) or (tag_us in tags) or
(tag_hy in tags)`, propagating a `KeyError` from the config lookup. -/
def resolveRemoveFlag (nb_config : String → Option MetaValue)
    (cell_render_key : String) (cell_metadata : List (String × MetaValue))
    (cfg_key tag_us tag_hy : String) : Except String Bool := do
  let v ← get_cell_render_config nb_config cell_render_key cell_metadata
    cfg_key Option.none true
  let tags := getTags cell_metadata
  pure (truthy v || tags.contains tag_us || tags.contains tag_hy)

/-- One notebook code cell as read from its token in
`render_nb_cell_code`: metadata, source text, optional lexer,
execution count, and the owning notebook entry's outputs. -/
structure CodeCell where
  metadata : List (String × MetaValue)
  source : String
  lexer : Option String
  execution_count : Option Int
  outputs : List Output

/-- Translation of `DocutilsNbRenderer.render_nb_cell_code`
(src/myst_nb/docutils_.py lines 307-362): resolve the two removal
flags (config lookups may raise), short-circuit to nothing when both
hold, else build the cell container with one `tag_*` class per tag
(spaces replaced by underscores), a `cell_input` container holding the
highlighted source unless `remove_input`, and a `cell_output`
container holding the rendered outputs when `remove_output` is false
and the outputs list is non-empty. -/
def render_nb_cell_code (hooks : Hooks)
    (nb_config : String → Option MetaValue) (cell_render_key : String)
    (mime_priority : List String) (cell_index line : Nat)
    (cell : CodeCell) : Except String (List Node) := do
  let tags := getTags cell.metadata
  let remove_input ← resolveRemoveFlag nb_config cell_render_key cell.metadata
    "remove_code_source" "remove_input" "remove-input"
  let remove_output ← resolveRemoveFlag nb_config cell_render_key cell.metadata
    "remove_code_outputs" "remove_output" "remove-output"
  if remove_input && remove_output then
    return []
  else
    let classes := "cell" :: tags.map (fun t => "tag_" ++ t.replace " " "_")
    let inputPart ←
      if remove_input then
        pure []
      else do
        let number_lines ← get_cell_render_config nb_config cell_render_key
          cell.metadata "number_source_lines" Option.none true
        pure [Node.container "cell_code_source" ["cell_input"]
          [hooks.create_highlighted_code_block cell.source cell.lexer number_lines]]
    let outputPart :=
      if !remove_output && !cell.outputs.isEmpty then
        [Node.container "cell_code_output" ["cell_output"]
          (render_nb_cell_code_outputs
            (RenderCtx.mk hooks nb_config cell_render_key cell.metadata cell_index line)
            mime_priority cell.outputs)]
      else []
    return [Node.container "cell_code" classes (inputPart ++ outputPart)]

/-- One notebook cell as read by `NotebookParser.parse`
(src/myst_nb/parser.py): type string, source text, metadata tags, and
(for code cells) the outputs stored into the `CellOutputBundleNode`. -/
structure PCell where
  cell_type : String
  source : String
  tags : List String
  outputs : List Output

/-- Translation of one iteration of the cell loop of
`NotebookParser.parse` (src/myst_nb/parser.py lines 43-89): a cell
with empty source is skipped; a markdown cell has a newline appended
if missing and is rendered by the external myst renderer (`mdRender`),
wrapped in a `toggle` container when the `hide_input` tag is present;
a code cell becomes a `CellNode` with `cell` and `tag_*` classes
holding a `CellInputNode` (literal block of the source) and a
`CellOutputNode` (bundle of the outputs); any other cell type matches
no branch and produces nothing. -/
def parseOneCell (mdRender : String → List Node) (c : PCell) : List Node :=
  if c.source.length = 0 then []
  else
    let classes := "cell" :: c.tags.map (fun t => "tag_" ++ t)
    if c.cell_type = "markdown" then
      let source := if c.source.endsWith "\n" then c.source else c.source ++ "\n"
      if c.tags.contains "hide_input" then
        [Node.container "container" ["toggle"] (mdRender source)]
      else
        mdRender source
    else if c.cell_type = "code" then
      [Node.container "CellNode" classes
        [Node.container "CellInputNode" ["cell_input"] [Node.literal_block c.source],
         Node.container "CellOutputNode" ["cell_output"] [Node.outputBundle c.outputs]]]
    else []

/-- The cell loop of `NotebookParser.parse` (src/myst_nb/parser.py
lines 43-89): the cells are visited in notebook order and each
appends its nodes to the document. -/
def parseNotebook (mdRender : String → List Node) : List PCell → List Node
  | [] => []
  | c :: rest => parseOneCell mdRender c ++ parseNotebook mdRender rest

/-! ## Helper lemmas and sample fixtures -/

/-- The cell-level hit of a config lookup: the value under `key` inside
the cell's render-config sub-map, when that sub-map exists and is a
dict containing `key`. -/
def cellLevelHit (cell_metadata : List (String × MetaValue))
    (cell_render_key key : String) : Option MetaValue :=
  match lookupMeta cell_metadata cell_render_key with
  | Option.some (MetaValue.dict d) => lookupMeta d key
  | _ => Option.none

theorem renderOutputsGo_append (ctx : RenderCtx) (pr : List String)
    (l1 l2 : List Output) (i : Nat) :
    renderOutputsGo ctx pr i (l1 ++ l2)
      = renderOutputsGo ctx pr i l1 ++ renderOutputsGo ctx pr (i + l1.length) l2 := by
  induction l1 generalizing i with
  | nil => simp [renderOutputsGo]
  | cons a t ih =>
    simp only [List.cons_append, renderOutputsGo, List.length_cons, List.append_eq]
    rw [ih (i + 1), show i + 1 + t.length = i + (t.length + 1) from by omega,
      List.append_assoc]

theorem renderOutputsGo_join (ctx : RenderCtx) (pr : List String)
    (outs : List Output) (i : Nat) :
    renderOutputsGo ctx pr i outs
      = ((outs.enumFrom i).map (fun p => renderOneOutput ctx pr p.1 p.2)).flatten := by
  induction outs generalizing i with
  | nil => simp [renderOutputsGo, List.enumFrom]
  | cons a t ih => simp [renderOutputsGo, List.enumFrom, ih (i + 1)]

/-- A sample notebook-level configuration defining the keys the
renderer needs (plus `figure`, to exercise that `figure` is never
looked up at notebook level). -/
def sampleNbConfig : String → Option MetaValue := fun key =>
  if key = "remove_code_source" then Option.some (MetaValue.bool false)
  else if key = "remove_code_outputs" then Option.some (MetaValue.bool false)
  else if key = "number_source_lines" then Option.some (MetaValue.bool false)
  else if key = "figure" then Option.some (MetaValue.dict [("align", MetaValue.str "left")])
  else Option.none

/-- Sample external element-renderer hooks producing opaque nodes. -/
def sampleHooks : Hooks :=
  Hooks.mk (fun _ _ _ _ => [Node.ext "stdout"]) (fun _ _ _ _ => [Node.ext "stderr"])
    (fun _ _ _ _ => [Node.ext "error"]) (fun _ => [Node.ext "mime"])
    (fun _ _ _ => Node.ext "code")

/-- A sample render context with empty cell metadata. -/
def sampleCtx : RenderCtx :=
  RenderCtx.mk sampleHooks sampleNbConfig "mystnb" [] 0 7

/-- A sample external markdown renderer for the `parser.py` path. -/
def sampleMdRender : String → List Node := fun _ => [Node.ext "md"]

/-- A sample stream output on stdout. -/
def sampleStdout : Output :=
  Output.mk "stream" "stdout" "hello\n" "" "" [] [] []

/-! ## Claim theorems -/

/-- C1: for every display_data/execute_result output and every resolved
mime-priority list sharing at least one entry with the output's data
keys, the selected MIME type (the `next(x for x in mime_priority if x
in output["data"])` expression, embedded as `selectMimeType` and used
by `renderOneOutput`) is the earliest entry of the priority list
present among the data keys, and selection is deterministic: equal
inputs give equal results. -/
theorem mime_selection_earliest (pr : List String) (data : List (String × String))
    (h : ∃ x ∈ pr, hasKey data x = true) :
    ∃ i, ∃ hi : i < pr.length,
      selectMimeType pr data = Option.some (pr.get ⟨i, hi⟩)
      ∧ hasKey data (pr.get ⟨i, hi⟩) = true
      ∧ (∀ j, ∀ hj : j < i, hasKey data (pr.get ⟨j, Nat.lt_trans hj hi⟩) = false)
      ∧ (∀ pr2 data2, pr2 = pr → data2 = data →
          selectMimeType pr2 data2 = selectMimeType pr data) := by
  induction pr with
  | nil => simp at h
  | cons a as ih =>
    by_cases ha : hasKey data a = true
    · refine ⟨0, Nat.succ_pos _, ?_, ha, ?_, ?_⟩
      · simpa [selectMimeType] using List.find?_cons_of_pos (p := fun x => hasKey data x) as ha
      · intro j hj
        exact absurd hj (Nat.not_lt_zero j)
      · intro pr2 data2 e1 e2
        rw [e1, e2]
    · have ha0 : hasKey data a = false := by
        cases hv : hasKey data a
        · rfl
        · exact absurd hv ha
      obtain ⟨x, hx, hkx⟩ := h
      rcases List.mem_cons.mp hx with hxa | hx2
      · rw [hxa] at hkx
        exact absurd hkx ha
      · obtain ⟨i, hi, hsel, hkey, hmin, _⟩ := ih ⟨x, hx2, hkx⟩
        refine ⟨i + 1, Nat.succ_lt_succ hi, ?_, hkey, ?_, ?_⟩
        · have hstep : selectMimeType (a :: as) data = selectMimeType as data := by
            simpa [selectMimeType] using
              List.find?_cons_of_neg (p := fun x => hasKey data x) as ha
          rw [hstep, hsel]
          rfl
        · intro j hj
          cases j with
          | zero => exact ha0
          | succ k => exact hmin k (Nat.lt_of_succ_lt_succ hj)
        · intro pr2 data2 e1 e2
          rw [e1, e2]

/-- Witness for C1 at priority `["text/html", "text/plain"]` and data
keys `{"text/plain"}`: the hypotheses hold and the selected type is
the earliest present entry. -/
theorem mime_selection_earliest_app :
    (∃ x ∈ (["text/html", "text/plain"] : List String),
      hasKey [("text/plain", "42")] x = true)
    ∧ ∃ i, ∃ hi : i < (["text/html", "text/plain"] : List String).length,
        selectMimeType ["text/html", "text/plain"] [("text/plain", "42")]
          = Option.some ((["text/html", "text/plain"] : List String).get ⟨i, hi⟩)
        ∧ hasKey [("text/plain", "42")] ((["text/html", "text/plain"] : List String).get ⟨i, hi⟩) = true
        ∧ (∀ j, ∀ hj : j < i,
            hasKey [("text/plain", "42")]
              ((["text/html", "text/plain"] : List String).get ⟨j, Nat.lt_trans hj hi⟩) = false)
        ∧ (∀ pr2 data2, pr2 = ["text/html", "text/plain"] → data2 = [("text/plain", "42")] →
            selectMimeType pr2 data2
              = selectMimeType ["text/html", "text/plain"] [("text/plain", "42")]) :=
  ⟨by decide, mime_selection_earliest ["text/html", "text/plain"] [("text/plain", "42")] (by decide)⟩

/-- C3: for every cell metadata map and option key, a cell-level value
under the render-config sub-map wins regardless of the notebook-level
configuration (which the result does not consult); otherwise, with
notebook fallback allowed, the notebook-level value for `nb_key or
key` is returned, and if that is undefined the lookup fails with a
`KeyError` rather than silently defaulting. -/
theorem cell_config_precedence (nb_config : String → Option MetaValue)
    (cell_render_key : String) (md : List (String × MetaValue))
    (key : String) (nb_key : Option String) :
    get_cell_render_config nb_config cell_render_key md key nb_key true =
      match cellLevelHit md cell_render_key key with
      | Option.some v => Except.ok v
      | Option.none =>
        match nb_config (nb_key.getD key) with
        | Option.some g => Except.ok g
        | Option.none => Except.error (nb_key.getD key) := by
  cases hm : lookupMeta md cell_render_key with
  | none => simp [get_cell_render_config, cellLevelHit, hm]
  | some v =>
    cases v with
    | none => simp [get_cell_render_config, cellLevelHit, hm]
    | bool b => simp [get_cell_render_config, cellLevelHit, hm]
    | num n => simp [get_cell_render_config, cellLevelHit, hm]
    | str s => simp [get_cell_render_config, cellLevelHit, hm]
    | list items => simp [get_cell_render_config, cellLevelHit, hm]
    | dict d =>
      cases hd : lookupMeta d key with
      | none => simp [get_cell_render_config, cellLevelHit, hm, hd]
      | some w => simp [get_cell_render_config, cellLevelHit, hm, hd]

/-- C10: when the cell metadata holds the render-config key but its
value is not a dict, the cell-level entry is silently ignored and the
lookup resolves at notebook level, exactly as if there were no
cell-level entry; no error is raised on account of the malformed
entry and no warning is emitted (warnings are a `TODO` in the code). -/
theorem non_dict_cell_override_ignored (nb_config : String → Option MetaValue)
    (cell_render_key : String) (md : List (String × MetaValue))
    (key : String) (nb_key : Option String) (v : MetaValue)
    (h1 : lookupMeta md cell_render_key = Option.some v)
    (h2 : isDict v = false) :
    get_cell_render_config nb_config cell_render_key md key nb_key true =
      (match nb_config (nb_key.getD key) with
       | Option.some g => Except.ok g
       | Option.none => Except.error (nb_key.getD key)) := by
  cases v with
  | dict d => simp [isDict] at h2
  | none => simp [get_cell_render_config, h1]
  | bool b => simp [get_cell_render_config, h1]
  | num n => simp [get_cell_render_config, h1]
  | str s => simp [get_cell_render_config, h1]
  | list items => simp [get_cell_render_config, h1]

/-- Witness for C10: cell metadata maps the render-config key to a
string; the lookup falls through to the notebook level and succeeds. -/
theorem non_dict_cell_override_ignored_app :
    get_cell_render_config sampleNbConfig "mystnb"
      [("mystnb", MetaValue.str "oops")] "number_source_lines" Option.none true
      = Except.ok (MetaValue.bool false) :=
  (non_dict_cell_override_ignored sampleNbConfig "mystnb"
    [("mystnb", MetaValue.str "oops")] "number_source_lines" Option.none
    (MetaValue.str "oops") rfl rfl).trans rfl

/-- A sample code cell whose tags request removal of both input (via
the underscored spelling) and output (via the hyphenated spelling). -/
def sampleRemovedCell : CodeCell :=
  CodeCell.mk
    [("tags", MetaValue.list [MetaValue.str "remove_input", MetaValue.str "remove-output"])]
    "1+1" Option.none (Option.some 1)
    [Output.mk "execute_result" "" "" "" "" [] [("text/plain", "2")] []]

/-- C5: a code cell for which both `remove_input` and `remove_output`
resolve to true renders to zero tree nodes — not even an empty cell
container (the `return` short-circuit before the container is
created). -/
theorem remove_both_skips_cell (hooks : Hooks)
    (nb_config : String → Option MetaValue) (cell_render_key : String)
    (mime_priority : List String) (cell_index line : Nat) (cell : CodeCell)
    (h1 : resolveRemoveFlag nb_config cell_render_key cell.metadata
      "remove_code_source" "remove_input" "remove-input" = Except.ok true)
    (h2 : resolveRemoveFlag nb_config cell_render_key cell.metadata
      "remove_code_outputs" "remove_output" "remove-output" = Except.ok true) :
    render_nb_cell_code hooks nb_config cell_render_key mime_priority
      cell_index line cell = Except.ok [] := by
  simp [render_nb_cell_code, h1, h2, Bind.bind, Except.bind, Pure.pure, Except.pure]

/-- Witness for C5: a concrete cell tagged `remove_input` and
`remove-output` produces no nodes at all. -/
theorem remove_both_skips_cell_app :
    render_nb_cell_code sampleHooks sampleNbConfig "mystnb" ["text/plain"]
      0 3 sampleRemovedCell = Except.ok [] :=
  remove_both_skips_cell sampleHooks sampleNbConfig "mystnb" ["text/plain"]
    0 3 sampleRemovedCell rfl rfl

/-- C6: whenever the effective config lookups succeed, `remove_input`
resolves to true exactly when the effective `remove_code_source` value
is truthy, or the tag `remove_input` is present, or the tag
`remove-input` is present — the hyphenated and underscored spellings
enter the same disjunction, independently of the config flag; and
`remove_output` is resolved the same way from
`remove_code_outputs` / `remove_output` / `remove-output`. -/
theorem remove_flags_resolution (nb_config : String → Option MetaValue)
    (cell_render_key : String) (md : List (String × MetaValue)) (v w : MetaValue)
    (h1 : get_cell_render_config nb_config cell_render_key md
      "remove_code_source" Option.none true = Except.ok v)
    (h2 : get_cell_render_config nb_config cell_render_key md
      "remove_code_outputs" Option.none true = Except.ok w) :
    resolveRemoveFlag nb_config cell_render_key md
      "remove_code_source" "remove_input" "remove-input"
      = Except.ok (truthy v || (getTags md).contains "remove_input"
          || (getTags md).contains "remove-input")
    ∧ resolveRemoveFlag nb_config cell_render_key md
      "remove_code_outputs" "remove_output" "remove-output"
      = Except.ok (truthy w || (getTags md).contains "remove_output"
          || (getTags md).contains "remove-output") := by
  constructor
  · simp [resolveRemoveFlag, h1]
  · simp [resolveRemoveFlag, h2]

/-- Witness for C6: with the global flags false and only the
hyphenated tag `remove-input` present, `remove_input` resolves true. -/
theorem remove_flags_resolution_app :
    resolveRemoveFlag sampleNbConfig "mystnb"
      [("tags", MetaValue.list [MetaValue.str "remove-input"])]
      "remove_code_source" "remove_input" "remove-input" = Except.ok true :=
  ((remove_flags_resolution sampleNbConfig "mystnb"
    [("tags", MetaValue.list [MetaValue.str "remove-input"])]
    (MetaValue.bool false) (MetaValue.bool false) rfl rfl).1).trans rfl

/-- C2: a display_data/execute_result output whose data keys share no
entry with the mime-priority list renders to exactly one warning node
and zero content nodes, without raising (the render function is
total), and every other output of the cell — before and after it — is
still rendered at its own position. -/
theorem no_overlap_output_warns (ctx : RenderCtx) (pr : List String)
    (oi : Nat) (out : Output) (outs1 outs2 : List Output)
    (h1 : out.output_type = "display_data" ∨ out.output_type = "execute_result")
    (h2 : ∀ x ∈ pr, hasKey out.data x = false) :
    renderOneOutput ctx pr oi out
      = [Node.warning "No output mime type found from render_priority" ctx.line "mime_type"]
    ∧ render_nb_cell_code_outputs ctx pr (outs1 ++ out :: outs2)
      = renderOutputsGo ctx pr 0 outs1
        ++ [Node.warning "No output mime type found from render_priority" ctx.line "mime_type"]
        ++ renderOutputsGo ctx pr (outs1.length + 1) outs2 := by
  have hsel : selectMimeType pr out.data = Option.none := by
    apply List.find?_eq_none.mpr
    intro x hx
    simp [h2 x hx]
  have hone : ∀ i, renderOneOutput ctx pr i out
      = [Node.warning "No output mime type found from render_priority" ctx.line "mime_type"] := by
    intro i
    rcases h1 with h | h <;> simp [renderOneOutput, h, hsel]
  refine ⟨hone oi, ?_⟩
  show renderOutputsGo ctx pr 0 (outs1 ++ out :: outs2) = _
  rw [renderOutputsGo_append ctx pr outs1 (out :: outs2) 0]
  simp [renderOutputsGo, hone]

/-- Witness for C2: a display output offering only `image/png` against
priority `["text/html"]`, sitting between two stdout streams; the
warning replaces it and both neighbours still render. -/
theorem no_overlap_output_warns_app :
    renderOneOutput sampleCtx ["text/html"] 1
      (Output.mk "display_data" "" "" "" "" [] [("image/png", "iVBOR")] [])
      = [Node.warning "No output mime type found from render_priority" 7 "mime_type"]
    ∧ render_nb_cell_code_outputs sampleCtx ["text/html"]
        ([sampleStdout] ++ Output.mk "display_data" "" "" "" "" [] [("image/png", "iVBOR")] [] :: [sampleStdout])
      = renderOutputsGo sampleCtx ["text/html"] 0 [sampleStdout]
        ++ [Node.warning "No output mime type found from render_priority" 7 "mime_type"]
        ++ renderOutputsGo sampleCtx ["text/html"] ([sampleStdout].length + 1) [sampleStdout] :=
  no_overlap_output_warns sampleCtx ["text/html"] 1
    (Output.mk "display_data" "" "" "" "" [] [("image/png", "iVBOR")] [])
    [sampleStdout] [sampleStdout] (Or.inl rfl) (by decide)

/-- C7: an output whose `output_type` is none of stream, error,
display_data, execute_result renders to exactly one warning node in
its place, without raising, and rendering continues with the outputs
around it. -/
theorem unsupported_output_type_warns (ctx : RenderCtx) (pr : List String)
    (oi : Nat) (out : Output) (outs1 outs2 : List Output)
    (h1 : out.output_type ≠ "stream") (h2 : out.output_type ≠ "error")
    (h3 : out.output_type ≠ "display_data") (h4 : out.output_type ≠ "execute_result") :
    renderOneOutput ctx pr oi out
      = [Node.warning ("Unsupported output type: " ++ out.output_type) ctx.line "output_type"]
    ∧ render_nb_cell_code_outputs ctx pr (outs1 ++ out :: outs2)
      = renderOutputsGo ctx pr 0 outs1
        ++ [Node.warning ("Unsupported output type: " ++ out.output_type) ctx.line "output_type"]
        ++ renderOutputsGo ctx pr (outs1.length + 1) outs2 := by
  have hone : ∀ i, renderOneOutput ctx pr i out
      = [Node.warning ("Unsupported output type: " ++ out.output_type) ctx.line "output_type"] := by
    intro i
    simp [renderOneOutput, h1, h2, h3, h4]
  refine ⟨hone oi, ?_⟩
  show renderOutputsGo ctx pr 0 (outs1 ++ out :: outs2) = _
  rw [renderOutputsGo_append ctx pr outs1 (out :: outs2) 0]
  simp [renderOutputsGo, hone]

/-- Witness for C7: an output of type `unknown_output` between two
stdout streams yields one warning and the neighbours still render. -/
theorem unsupported_output_type_warns_app :
    renderOneOutput sampleCtx ["text/html"] 1
      (Output.mk "unknown_output" "" "" "" "" [] [] [])
      = [Node.warning "Unsupported output type: unknown_output" 7 "output_type"]
    ∧ render_nb_cell_code_outputs sampleCtx ["text/html"]
        ([sampleStdout] ++ Output.mk "unknown_output" "" "" "" "" [] [] [] :: [sampleStdout])
      = renderOutputsGo sampleCtx ["text/html"] 0 [sampleStdout]
        ++ [Node.warning "Unsupported output type: unknown_output" 7 "output_type"]
        ++ renderOutputsGo sampleCtx ["text/html"] ([sampleStdout].length + 1) [sampleStdout] :=
  unsupported_output_type_warns sampleCtx ["text/html"] 1
    (Output.mk "unknown_output" "" "" "" "" [] [] [])
    [sampleStdout] [sampleStdout] (by decide) (by decide) (by decide) (by decide)

/-- C8: a stream output whose name is neither stdout nor stderr is
silently dropped: no tree nodes, no warning, no exception, and the
outputs around it are still rendered. -/
theorem unknown_stream_name_dropped (ctx : RenderCtx) (pr : List String)
    (oi : Nat) (out : Output) (outs1 outs2 : List Output)
    (h1 : out.output_type = "stream")
    (h2 : out.name ≠ "stdout") (h3 : out.name ≠ "stderr") :
    renderOneOutput ctx pr oi out = []
    ∧ render_nb_cell_code_outputs ctx pr (outs1 ++ out :: outs2)
      = renderOutputsGo ctx pr 0 outs1
        ++ renderOutputsGo ctx pr (outs1.length + 1) outs2 := by
  have hone : ∀ i, renderOneOutput ctx pr i out = [] := by
    intro i
    simp [renderOneOutput, h1, h2, h3]
  refine ⟨hone oi, ?_⟩
  show renderOutputsGo ctx pr 0 (outs1 ++ out :: outs2) = _
  rw [renderOutputsGo_append ctx pr outs1 (out :: outs2) 0]
  simp [renderOutputsGo, hone]

/-- Witness for C8: a stream output named `stdin` produces nothing and
the surrounding outputs still render. -/
theorem unknown_stream_name_dropped_app :
    renderOneOutput sampleCtx ["text/html"] 1
      (Output.mk "stream" "stdin" "x" "" "" [] [] []) = []
    ∧ render_nb_cell_code_outputs sampleCtx ["text/html"]
        ([sampleStdout] ++ Output.mk "stream" "stdin" "x" "" "" [] [] [] :: [sampleStdout])
      = renderOutputsGo sampleCtx ["text/html"] 0 [sampleStdout]
        ++ renderOutputsGo sampleCtx ["text/html"] ([sampleStdout].length + 1) [sampleStdout] :=
  unknown_stream_name_dropped sampleCtx ["text/html"] 1
    (Output.mk "stream" "stdin" "x" "" "" [] [] [])
    [sampleStdout] [sampleStdout] rfl (by decide) (by decide)

/-- C9: figure options are looked up with `has_nb_key = False`, so the
lookup never consults the notebook-level configuration: when the cell
metadata has no cell-level `figure` entry the lookup fails with
`KeyError("figure")` — even if the notebook config defines `figure` —
and this failure is recoverable: the suppressed error leaves
`figure_options = None`, the output renders unwrapped through the
`render_mime_type` hook, and no error escapes (the renderer is
total). -/
theorem figure_options_cell_level_only (ctx : RenderCtx) (pr : List String)
    (oi : Nat) (out : Output) (m : String)
    (h1 : out.output_type = "display_data" ∨ out.output_type = "execute_result")
    (h2 : selectMimeType pr out.data = Option.some m)
    (h3 : cellLevelHit ctx.metadata ctx.cell_render_key "figure" = Option.none) :
    get_cell_render_config ctx.nb_config ctx.cell_render_key ctx.metadata
      "figure" Option.none false = Except.error "figure"
    ∧ renderOneOutput ctx pr oi out
      = ctx.hooks.render_mime_type
          (MimeData.mk m ((lookupStr out.data m).getD "") ctx.metadata
            out.metadata ctx.cell_index oi ctx.line) := by
  have hfig : get_cell_render_config ctx.nb_config ctx.cell_render_key ctx.metadata
      "figure" Option.none false = Except.error "figure" := by
    unfold cellLevelHit at h3
    cases hm : lookupMeta ctx.metadata ctx.cell_render_key with
    | none => simp [get_cell_render_config, hm]
    | some v =>
      rw [hm] at h3
      cases v with
      | none => simp [get_cell_render_config, hm]
      | bool b => simp [get_cell_render_config, hm]
      | num n => simp [get_cell_render_config, hm]
      | str s => simp [get_cell_render_config, hm]
      | list items => simp [get_cell_render_config, hm]
      | dict d =>
        simp at h3
        simp [get_cell_render_config, hm, h3]
  refine ⟨hfig, ?_⟩
  rcases h1 with h | h <;>
    simp [renderOneOutput, h, h2, hfig, create_figure_context, Except.toOption]

/-- Witness for C9: with empty cell metadata but a notebook config
that does define `figure`, a display output renders unwrapped through
the mime hook. -/
theorem figure_options_cell_level_only_app :
    renderOneOutput sampleCtx ["image/png"] 0
      (Output.mk "display_data" "" "" "" "" [] [("image/png", "iVBOR")] [])
      = [Node.ext "mime"] :=
  ((figure_options_cell_level_only sampleCtx ["image/png"] 0
    (Output.mk "display_data" "" "" "" "" [] [("image/png", "iVBOR")] [])
    "image/png" (Or.inl rfl) rfl rfl).2).trans rfl

/-- Counterexample for C4 as stated: in `NotebookParser.parse`
(src/myst_nb/parser.py line 45, `if len(cell["source"]) == 0:
continue`), a markdown cell with empty source is skipped and
contributes zero nodes to the tree, although it is not a code cell
whose `remove_input` and `remove_output` both resolve true (that
parser has no remove-flag logic at all) — so "no cell is skipped
except a code cell whose remove_input and remove_output both resolve
true" is false on the code. -/
theorem notebook_parse_skips_empty_markdown :
    parseNotebook sampleMdRender [PCell.mk "markdown" "" [] []] = []
    ∧ (PCell.mk "markdown" "" ([] : List String) ([] : List Output)).cell_type ≠ "code" := by
  constructor
  · rfl
  · decide

/-- C4 (amended): rendering preserves notebook order.  The
`NotebookParser.parse` loop visits cells in index order, emitting each
cell's nodes in place, so the document is the concatenation of the
per-cell renderings in cell order and no cell is reordered; a cell is
skipped when its source is empty (regardless of its type and with no
remove-flag logic in that path; the remove-flag skip of the
`DocutilsNbRenderer` path is proved separately for C5).  Within a code
cell, `render_nb_cell_code_outputs` renders the outputs as the
concatenation, in original `output_index` order, of each output's
rendering at its own index. -/
theorem render_order_amended :
    (∀ (mdRender : String → List Node) (cells : List PCell),
      parseNotebook mdRender cells = (cells.map (parseOneCell mdRender)).flatten)
    ∧ (∀ (mdRender : String → List Node) (ct : String) (tags : List String)
        (outs : List Output),
      parseOneCell mdRender (PCell.mk ct "" tags outs) = [])
    ∧ (∀ (ctx : RenderCtx) (pr : List String) (outs : List Output),
      render_nb_cell_code_outputs ctx pr outs
        = ((outs.enumFrom 0).map (fun p => renderOneOutput ctx pr p.1 p.2)).flatten) := by
  refine ⟨?_, ?_, ?_⟩
  · intro mdRender cells
    induction cells with
    | nil => simp [parseNotebook]
    | cons c t ih => simp [parseNotebook, ih]
  · intro mdRender ct tags outs
    simp [parseOneCell]
  · intro ctx pr outs
    exact renderOutputsGo_join ctx pr outs 0
